import Mathlib

/-!
Verification development for the résumé-screening engine: a shallow
embedding of the parsing, matching and ranking code
(resume_parser.py, job_resume_matcher.py) with theorems about it.

Python strings are modelled as Lean strings, but every operation is
implemented structurally over the character list so that all
definitions compute by kernel reduction. Python floats are idealised
as rationals. External library calls (the spaCy keyword extractor and
the sklearn TF-IDF vectoriser) are modelled as function parameters;
the TF-IDF result is modelled by the pair of l2-normalised row
vectors, with vectorisation failure as `none`.
-/

/-- Word characters of the regex word boundary \b (ASCII fragment). -/
def isWordChar (c : Char) : Bool := c.isAlphanum || c = '_'

/-- Word-character test seeing out-of-string positions as non-word. -/
def optIsWord : Option Char → Bool
  | none => false
  | some c => isWordChar c

/-- Python substring containment (the operator `in` on strings), on lists. -/
def containsList (s pat : List Char) : Bool :=
  pat.isPrefixOf s ||
    match s with
    | [] => false
    | _ :: t => containsList t pat

/-- Python substring containment on strings. -/
def pyContains (s pat : String) : Bool := containsList s.toList pat.toList

/-- Python str.find: index of the first occurrence of a substring. -/
def indexOfList (s pat : List Char) : Option Nat :=
  if pat.isPrefixOf s then some 0
  else
    match s with
    | [] => none
    | _ :: t => (indexOfList t pat).map (· + 1)

/-- Python str.split on a single separator character. -/
def splitOnChar (c : Char) (s : List Char) : List (List Char) :=
  match s with
  | [] => [[]]
  | a :: t =>
    let r := splitOnChar c t
    if a = c then [] :: r
    else
      match r with
      | [] => [[a]]
      | h :: rest => (a :: h) :: rest

/-- Python text.split with a one-character separator, e.g. newline. -/
def pySplitOn (c : Char) (s : String) : List String :=
  (splitOnChar c s.toList).map String.mk

/-- Python str.split() with no argument: split on whitespace runs, no empties. -/
def splitWSAux : List Char → List Char → List (List Char)
  | [], acc => if acc.isEmpty then [] else [acc.reverse]
  | c :: t, acc =>
    if c.isWhitespace then
      if acc.isEmpty then splitWSAux t [] else acc.reverse :: splitWSAux t []
    else splitWSAux t (c :: acc)

/-- Python line.split() used by the job-title heuristic. -/
def pySplitWS (s : String) : List String := (splitWSAux s.toList []).map String.mk

/-- Python str.strip(): drop whitespace at both ends. -/
def trimChars (s : List Char) : List Char :=
  ((s.dropWhile Char.isWhitespace).reverse.dropWhile Char.isWhitespace).reverse

/-- Python str.strip() on strings. -/
def pyStrip (s : String) : String := String.mk (trimChars s.toList)

/-- Python str.lower() (ASCII fragment, which covers the vocabularies). -/
def pyLower (s : String) : String := String.mk (s.toList.map Char.toLower)

/-- Python str.title(): initial letter of each word uppercased, rest lowered. -/
def pyTitleAux : Bool → List Char → List Char
  | _, [] => []
  | prevAlpha, c :: t =>
    (if c.isAlpha then (if prevAlpha then c.toLower else c.toUpper) else c) ::
      pyTitleAux c.isAlpha t

/-- Python str.title() on strings. -/
def pyTitle (s : String) : String := String.mk (pyTitleAux false s.toList)

/-- Python sep.join(xs). -/
def pyJoin (sep : String) (xs : List String) : String :=
  String.mk (List.intercalate sep.toList (xs.map String.toList))

/-- Numeric value of a decimal digit character. -/
def digitVal (c : Char) : Nat := c.toNat - 48

/-- Python int() on a run of decimal digits. -/
def digitsToNat (ds : List Char) : Nat := ds.foldl (fun n c => 10 * n + digitVal c) 0

/-- Greedy \d+ at the head of the input: the digit run and the rest. -/
def takeDigits (s : List Char) : List Char × List Char :=
  (s.takeWhile Char.isDigit, s.dropWhile Char.isDigit)

/-- Greedy \s* at the head of the input. -/
def dropSpaces (s : List Char) : List Char := s.dropWhile Char.isWhitespace

/-- re.search of \d+ : the first (leftmost, maximal) run of digits. -/
def firstDigitRun (s : List Char) : Option (List Char) :=
  match s with
  | [] => none
  | c :: t => if c.isDigit then some ((c :: t).takeWhile Char.isDigit) else firstDigitRun t

/-- Whether the next three characters are digits, for the \d{4} search. -/
def threeDigitsNext : List Char → Bool
  | d1 :: d2 :: d3 :: _ => d1.isDigit && d2.isDigit && d3.isDigit
  | _ => false

/-- re.search of \d{4}: value of the first four consecutive digits. -/
def first4Digits (s : List Char) : Option Nat :=
  match s with
  | [] => none
  | c :: t =>
    if c.isDigit && threeDigitsNext t then some (digitsToNat ((c :: t).take 4))
    else first4Digits t

/-- Decimal digit characters of a natural number (fuel-driven so it computes). -/
def natDigitsAux : Nat → Nat → List Char
  | 0, _ => []
  | fuel + 1, n =>
    if n < 10 then [Char.ofNat (48 + n)]
    else natDigitsAux fuel (n / 10) ++ [Char.ofNat (48 + n % 10)]

/-- Decimal digit characters of a natural number. -/
def natDigitChars (n : Nat) : List Char := natDigitsAux (n + 1) n

/-- Characters of Python str(z) for an integer z, as in an f-string. -/
def intChars (z : Int) : List Char :=
  if z < 0 then '-' :: natDigitChars (-z).toNat else natDigitChars z.toNat

/-- Match of the word-bounded pattern \b pat \b exactly at the current
position; prev is the character before that position. -/
def wbMatchAt (prev : Option Char) (s pat : List Char) : Bool :=
  pat.isPrefixOf s &&
  (optIsWord prev != optIsWord pat.head?) &&
  (optIsWord pat.getLast? != optIsWord (s.drop pat.length).head?)

/-- re.search of \b pat \b anywhere in the input. -/
def searchWordBounded (prev : Option Char) (s pat : List Char) : Bool :=
  match s with
  | [] => wbMatchAt prev [] pat
  | c :: t => wbMatchAt prev s pat || searchWordBounded (some c) t pat

/-! ## Data model (structured résumé and job records) -/

/-- Contact block of a parsed résumé (ResumeParser._extract_contact_info). -/
structure Contact where
  name : String
  email : String
  phone : String
  linkedin : String
  github : String
  location : String
deriving DecidableEq

/-- One work-experience entry (ResumeParser._extract_experience). -/
structure WorkEntry where
  company : String
  position : String
  start_date : String
  end_date : String
  duration : String
  description : String
  location : String
deriving DecidableEq

/-- One education entry (ResumeParser._extract_education). -/
structure EducationEntry where
  degree : String
  institution : String
  field_of_study : String
  start_date : String
  end_date : String
  gpa : String
  location : String
deriving DecidableEq

/-- One project entry (ResumeParser._extract_projects). -/
structure Project where
  title : String
  description : String
  technologies : List String
  link : String
deriving DecidableEq

/-- A structured résumé record as produced by ResumeParser._parse_text.
skills maps category names to matched skill lists; fields the matcher
never reads (certifications, achievements, languages, file metadata)
are omitted. -/
structure Resume where
  contact : Contact
  summary : String
  experience : List WorkEntry
  education : List EducationEntry
  skills : List (String × List String)
  projects : List Project
  total_experience_years : ℚ
deriving DecidableEq

/-- A structured job record as produced by
JobDescriptionParser.parse_job_description (responsibilities is always
the empty list in the source and is omitted). -/
structure Job where
  raw_text : String
  title : String
  required_skills : List String
  preferred_skills : List String
  min_experience : Nat
  max_experience : Option Nat
  education_required : String
  keywords : List String
  must_have_skills : List String
  nice_to_have_skills : List String
deriving DecidableEq

/-! ## Résumé parser: durations and total experience
(resume_parser.py, ResumeParser) -/

/-- The exact end-date markers checked by _calculate_duration. -/
def presentMarkers : List String := ["present", "current", "now", "ongoing"]

/-- Duration label f-string of _calculate_duration:
f"{years} years" if years > 1 else f"{years} year". -/
def durationLabel (years : Int) : String :=
  if years > 1 then String.mk (intChars years ++ " years".toList)
  else String.mk (intChars years ++ " year".toList)

/-- ResumeParser._calculate_duration. nowYear stands for
datetime.now().year; a failed \d{4} search raises inside the try and
the except turns it into the empty string. -/
def calculate_duration (nowYear : Nat) (start_date end_date : String) : String :=
  if start_date = "" then ""
  else if presentMarkers.contains (pyLower end_date) then "Ongoing"
  else
    match first4Digits start_date.toList with
    | none => ""
    | some start_year =>
      let endYearOpt : Option Int :=
        if pyContains (pyLower end_date) "present" then some (nowYear : Int)
        else (first4Digits end_date.toList).map (fun n => (n : Int))
      match endYearOpt with
      | none => ""
      | some end_year => durationLabel (end_year - (start_year : Int))

/-- Whether a duration string contains the token checked by
_calculate_total_experience ('year' in duration.lower()). -/
def yearTokenIn (d : String) : Bool := pyContains (pyLower d) "year"

/-- Months contributed by one entry in _calculate_total_experience.
none models the AttributeError raised when the duration mentions a
year but re.search(\d+) finds no digits. -/
def duration_months (d : String) : Option Nat :=
  if yearTokenIn d then (firstDigitRun d.toList).map (fun run => 12 * digitsToNat run)
  else some 0

/-- total_months accumulated over the entries, none on the first failure. -/
def total_months_of : List String → Option Nat
  | [] => some 0
  | d :: t =>
    match duration_months d, total_months_of t with
    | some m, some rest => some (m + rest)
    | _, _ => none

/-- Python round() half-to-even on an exact rational. -/
def roundHalfEven (x : ℚ) : Int :=
  let f := ⌊x⌋
  if x - f < 1 / 2 then f
  else if 1 / 2 < x - f then f + 1
  else if f % 2 = 0 then f else f + 1

/-- Python round(x, 1). -/
def pyRound1 (x : ℚ) : ℚ := (roundHalfEven (x * 10) : ℚ) / 10

/-- Python round(x, 2). -/
def pyRound2 (x : ℚ) : ℚ := (roundHalfEven (x * 100) : ℚ) / 100

/-- ResumeParser._calculate_total_experience: sum the whole-year counts
of the entries, as months, and return round(total_months / 12, 1). -/
def calculate_total_experience (exps : List WorkEntry) : Option ℚ :=
  (total_months_of (exps.map WorkEntry.duration)).map (fun (m : ℕ) => pyRound1 ((m : ℚ) / 12))

/-- Whole years an entry contributes, as a pure function of its duration
string (the value the code computes when it does not raise). -/
def duration_year_count (d : String) : Nat :=
  if yearTokenIn d then ((firstDigitRun d.toList).map digitsToNat).getD 0 else 0

/-- A duration string on which the year-count computation cannot raise:
if it mentions 'year' it also contains a digit. -/
def durOK (d : String) : Prop :=
  yearTokenIn d = true → (firstDigitRun d.toList).isSome = true

/-! ## Résumé parser: file-format dispatch (ResumeParser.parse_resume) -/

/-- Last index of '.' in a character list (str.rfind). -/
def lastDotIdxAux : List Char → Nat → Option Nat → Option Nat
  | [], _, acc => acc
  | c :: t, i, acc => lastDotIdxAux t (i + 1) (if c = '.' then some i else acc)

/-- pathlib PurePath.name: the final path component (plain paths). -/
def pathName (p : String) : String :=
  String.mk ((((splitOnChar '/' p.toList).filter (fun c => !c.isEmpty)).getLastD []))

/-- pathlib PurePath.suffix: the extension of the final component,
empty unless the last dot is at an interior position. -/
def pathSuffix (p : String) : String :=
  let name := (pathName p).toList
  match lastDotIdxAux name 0 none with
  | some i => if 0 < i ∧ i < name.length - 1 then String.mk (name.drop i) else ""
  | none => ""

/-- The two text-extraction routes of parse_resume. -/
inductive FormatRoute where
  | pdfRoute
  | docxRoute
deriving DecidableEq

/-- The format dispatch of ResumeParser.parse_resume: '.pdf' goes to the
PDF extractor, '.docx' or '.doc' to the DOCX extractor, anything else
raises ValueError("Unsupported file format: ..."). -/
def resume_format_route (file_path : String) : Except String FormatRoute :=
  if pyLower (pathSuffix file_path) = ".pdf" then Except.ok FormatRoute.pdfRoute
  else if pyLower (pathSuffix file_path) = ".docx" ∨ pyLower (pathSuffix file_path) = ".doc" then
    Except.ok FormatRoute.docxRoute
  else Except.error (pyJoin "" ["Unsupported file format: ", pathSuffix file_path])

/-! ## Job description parser (job_resume_matcher.py, JobDescriptionParser) -/

/-- The title-indicator keywords of _extract_job_title. -/
def titleIndicators : List String := ["position", "role", "job title", "hiring for"]

/-- The per-line loop of _extract_job_title over the first five lines. -/
def titleLoop : List String → String
  | [] => "Position Not Specified"
  | l :: rest =>
    let line := pyStrip l
    if line ≠ "" ∧ line.toList.length < 100 then
      if titleIndicators.any (fun k => pyContains (pyLower line) k) then line
      else if (pySplitWS line).length ≤ 10 ∧ line.toList.length > 10 then line
      else titleLoop rest
    else titleLoop rest

/-- JobDescriptionParser._extract_job_title. -/
def extract_job_title (text : String) : String :=
  titleLoop ((pySplitOn '\n' text).take 5)

/-- The final (?:years?|yrs?) token of the experience regexes. -/
def yearsTokenPrefix (s : List Char) : Bool :=
  "years".toList.isPrefixOf s || "year".toList.isPrefixOf s ||
  "yrs".toList.isPrefixOf s || "yr".toList.isPrefixOf s

/-- Tail \s*(\d+)?\s*(?:years?|yrs?) of the first experience regex,
after the optional to-or-dash separator; returns the optional second group. -/
def matchTailP1 (s : List Char) : Option (Option Nat) :=
  let r1 := dropSpaces s
  let (g2, r2) := takeDigits r1
  if yearsTokenPrefix (dropSpaces r2) then
    some (if g2.isEmpty then none else some (digitsToNat g2))
  else none

/-- Match of (\d+)\+?\s*(?:to|\-)?\s*(\d+)?\s*(?:years?|yrs?) at the
current position, with the regex backtracking over the optional to-or-dash
alternatives; digit runs are greedy (shortening one never helps, as no
later regex item can consume a digit the run gave up). -/
def matchP1At (s : List Char) : Option (Nat × Option Nat) :=
  let (g1, r1) := takeDigits s
  if g1.isEmpty then none
  else
    let r2 := match r1 with
      | '+' :: t => t
      | _ => r1
    let r3 := dropSpaces r2
    let tailRes :=
      (if "to".toList.isPrefixOf r3 then matchTailP1 (r3.drop 2) else none) <|>
      (if "-".toList.isPrefixOf r3 then matchTailP1 (r3.drop 1) else none) <|>
      matchTailP1 r3
    tailRes.map (fun g2 => (digitsToNat g1, g2))

/-- Leftmost match of the first experience regex (findall followed by
taking matches[0] uses only the leftmost match). -/
def findP1 : List Char → Option (Nat × Option Nat)
  | [] => none
  | c :: t => matchP1At (c :: t) <|> findP1 t

/-- Match of (\d+)\+\s*(?:years?|yrs?) at the current position. -/
def matchP2At (s : List Char) : Option Nat :=
  let (g1, r1) := takeDigits s
  if g1.isEmpty then none
  else
    match r1 with
    | '+' :: t => if yearsTokenPrefix (dropSpaces t) then some (digitsToNat g1) else none
    | _ => none

/-- Leftmost match of the second experience regex. -/
def findP2 : List Char → Option Nat
  | [] => none
  | c :: t => matchP2At (c :: t) <|> findP2 t

/-- The fresher / entry-level fallback terms of _extract_experience. -/
def fresherTerms : List String := ["fresher", "entry level", "0 years", "no experience"]

/-- JobDescriptionParser._extract_experience: (min_experience, max_experience). -/
def extract_experience (text : String) : Nat × Option Nat :=
  let tl := (pyLower text).toList
  match findP1 tl with
  | some m => m
  | none =>
    match findP2 tl with
    | some n => (n, none)
    | none =>
      if fresherTerms.any (fun t => containsList tl t.toList) then (0, some 2)
      else (0, none)

/-- The flat skill vocabulary of JobDescriptionParser._extract_skills. -/
def job_all_skills : List String :=
  ["Python", "Java", "JavaScript", "C++", "C#", "Ruby", "Go", "Rust", "PHP",
   "React", "Angular", "Vue", "Node.js", "Django", "Flask", "Spring",
   "SQL", "MySQL", "PostgreSQL", "MongoDB", "Redis", "Cassandra",
   "AWS", "Azure", "GCP", "Docker", "Kubernetes", "Jenkins", "CI/CD",
   "Machine Learning", "Deep Learning", "TensorFlow", "PyTorch", "NLP",
   "Git", "Agile", "Scrum", "REST API", "GraphQL", "Microservices",
   "HTML", "CSS", "TypeScript", "Swift", "Kotlin", "Scala"]

/-- Context words marking a skill as required. -/
def requiredTerms : List String := ["required", "must have", "mandatory", "essential"]

/-- Context words marking a skill as preferred. -/
def preferredTerms : List String := ["preferred", "nice to have", "plus", "bonus"]

/-- One iteration of the skill loop of _extract_skills: word-bounded
search, then classification by a 200-character window around the first
plain occurrence. -/
def classifySkill (tl : List Char) (acc : List String × List String) (skill : String) :
    List String × List String :=
  let sl := (pyLower skill).toList
  if searchWordBounded none tl sl then
    match indexOfList tl sl with
    | some idx =>
      let ctx := (tl.drop (idx - 100)).take (idx + 100 - (idx - 100))
      if requiredTerms.any (fun t => containsList ctx t.toList) then (acc.1 ++ [skill], acc.2)
      else if preferredTerms.any (fun t => containsList ctx t.toList) then (acc.1, acc.2 ++ [skill])
      else (acc.1 ++ [skill], acc.2)
    | none => acc
  else acc

/-- JobDescriptionParser._extract_skills: (required_skills, preferred_skills). -/
def extract_skills (text : String) : List String × List String :=
  job_all_skills.foldl (classifySkill ((pyLower text).toList)) ([], [])

/-- Section-opening literals of _extract_must_have_skills. -/
def mustHaveLits : List String := ["must have", "required", "essential", "mandatory"]

/-- Section-opening literals of _extract_nice_to_have_skills. -/
def niceLits : List String := ["nice to have", "preferred", "plus", "bonus", "optional"]

/-- re.search of (?:lit1|...|litn)[\s\S]{0,500}: the matched text at the
leftmost occurrence of any literal, keyword included, greedily extended
by up to 500 characters. -/
def findLitSection (tl : List Char) (lits : List String) : Option (List Char) :=
  match tl with
  | [] => none
  | c :: t =>
    match lits.find? (fun lit => lit.toList.isPrefixOf (c :: t)) with
    | some lit => some ((c :: t).take (lit.toList.length + 500))
    | none => findLitSection t lits

/-- JobDescriptionParser._extract_must_have_skills (list(set(...)) is
modelled as deduplication; the claims do not depend on its order). -/
def extract_must_have_skills (text : String) : List String :=
  match findLitSection ((pyLower text).toList) mustHaveLits with
  | some sec => ((extract_skills (String.mk sec)).1).dedup
  | none => []

/-- JobDescriptionParser._extract_nice_to_have_skills. -/
def extract_nice_to_have_skills (text : String) : List String :=
  match findLitSection ((pyLower text).toList) niceLits with
  | some sec => ((extract_skills (String.mk sec)).2).dedup
  | none => []

/-- The education-level ranking shared by JobDescriptionParser.__init__
and JobResumeMatcher._calculate_education_score (insertion order kept). -/
def education_levels : List (String × Nat) :=
  [("phd", 5), ("ph.d", 5), ("doctorate", 5),
   ("masters", 4), ("master", 4), ("m.tech", 4), ("m.sc", 4), ("mba", 4),
   ("bachelors", 3), ("bachelor", 3), ("b.tech", 3), ("b.sc", 3), ("b.e", 3),
   ("diploma", 2),
   ("high school", 1)]

/-- JobDescriptionParser._extract_education: highest-ranked keyword
present, title-cased, else the placeholder. -/
def extract_education (text : String) : String :=
  let best := education_levels.foldl
    (fun (acc : String × Nat) p =>
      if pyContains (pyLower text) p.1 && decide (acc.2 < p.2) then p else acc) ("", 0)
  if best.1 = "" then "Not Specified" else pyTitle best.1

/-- JobDescriptionParser.parse_job_description. kwext stands for the
keyword extractor _extract_keywords, whose tokenisation and POS tags
come from the external spaCy model. -/
def parse_job_description (kwext : String → List String) (job_text : String) : Job :=
  { raw_text := job_text
    title := extract_job_title job_text
    required_skills := (extract_skills job_text).1
    preferred_skills := (extract_skills job_text).2
    min_experience := (extract_experience job_text).1
    max_experience := (extract_experience job_text).2
    education_required := extract_education job_text
    keywords := kwext job_text
    must_have_skills := extract_must_have_skills job_text
    nice_to_have_skills := extract_nice_to_have_skills job_text }

/-! ## Match scorer (job_resume_matcher.py, JobResumeMatcher) -/

/-- All résumé skills across categories, case-folded
(the list comprehension feeding set() in _calculate_skills_score). -/
def resume_skill_list (r : Resume) : List String :=
  (r.skills.map (fun p => p.2.map pyLower)).flatten

/-- The résumé skill set. -/
def resume_skill_set (r : Resume) : Finset String := (resume_skill_list r).toFinset

/-- The job's required skills, case-folded, as a set. -/
def required_set (j : Job) : Finset String := (j.required_skills.map pyLower).toFinset

/-- The job's preferred skills, case-folded, as a set. -/
def preferred_set (j : Job) : Finset String := (j.preferred_skills.map pyLower).toFinset

/-- JobResumeMatcher._calculate_skills_score:
(skills_score, matched_skills, missing_skills). The returned sets model
the Python sets from which the result lists are built. -/
def calculate_skills_score (r : Resume) (j : Job) : ℚ × Finset String × Finset String :=
  let resume_skills := resume_skill_set r
  let required_skills := required_set j
  let preferred_skills := preferred_set j
  let all_job_skills := required_skills ∪ preferred_skills
  if all_job_skills = ∅ then (100, ∅, ∅)
  else
    let matched_required := resume_skills ∩ required_skills
    let matched_preferred := resume_skills ∩ preferred_skills
    let required_score : ℚ :=
      if required_skills ≠ ∅ then (matched_required.card : ℚ) / (required_skills.card : ℚ) * 100
      else 100
    let preferred_score : ℚ :=
      if preferred_skills ≠ ∅ then (matched_preferred.card : ℚ) / (preferred_skills.card : ℚ) * 100
      else 0
    let skills_score :=
      if required_skills ≠ ∅ then required_score * 0.8 + preferred_score * 0.2
      else preferred_score
    (skills_score, matched_required ∪ matched_preferred, all_job_skills \ resume_skills)

/-- JobResumeMatcher._calculate_experience_score: (score, gap).
The overqualification branch tests `max_exp and resume_exp > max_exp`,
so a max_experience of 0 is falsy and never triggers the penalty. -/
def calculate_experience_score (r : Resume) (j : Job) : ℚ × ℚ :=
  let resume_exp := r.total_experience_years
  let required_exp : ℚ := (j.min_experience : ℚ)
  if required_exp = 0 then (100, 0)
  else if required_exp ≤ resume_exp then
    match j.max_experience with
    | some m =>
      if m ≠ 0 ∧ (m : ℚ) < resume_exp then (max 70 (100 - (resume_exp - (m : ℚ)) * 5), 0)
      else (100, 0)
    | none => (100, 0)
  else (max 0 (100 - (required_exp - resume_exp) * 20), required_exp - resume_exp)

/-- The highest education level recognised in the résumé's degree
strings (substring scan over the ranking table). -/
def resumeEducationLevel (r : Resume) : Nat :=
  r.education.foldl
    (fun lvl e =>
      education_levels.foldl
        (fun l2 p => if pyContains (pyLower e.degree) p.1 then max l2 p.2 else l2) lvl)
    0

/-- JobResumeMatcher._calculate_education_score. -/
def calculate_education_score (r : Resume) (j : Job) : ℚ :=
  let resume_level := resumeEducationLevel r
  let required_level := (education_levels.lookup (pyLower j.education_required)).getD 0
  if required_level = 0 then 100
  else if required_level ≤ resume_level then 100
  else if resume_level + 1 = required_level then 80
  else max 50 (100 - ((required_level : ℚ) - (resume_level : ℚ)) * 20)

/-- The résumé text scanned by _calculate_keywords_score: summary,
experience descriptions and project descriptions joined and lowered. -/
def resume_keyword_text (r : Resume) : String :=
  pyLower (pyJoin " "
    [r.summary,
     pyJoin " " (r.experience.map WorkEntry.description),
     pyJoin " " (r.projects.map Project.description)])

/-- JobResumeMatcher._calculate_keywords_score. -/
def calculate_keywords_score (r : Resume) (j : Job) : ℚ :=
  if j.keywords = [] then 100
  else ((j.keywords.filter (fun k => pyContains (resume_keyword_text r) k)).length : ℚ) /
    (j.keywords.length : ℚ) * 100

/-- The résumé text sent to the vectoriser by _calculate_semantic_score:
summary and experience descriptions joined. -/
def resume_semantic_text (r : Resume) : String :=
  pyJoin " " [r.summary, pyJoin " " (r.experience.map WorkEntry.description)]

/-- Dot product of two rational vectors (truncating zip, as the two
TF-IDF rows always share one vector space of equal length). -/
def dotQ (u v : List ℚ) : ℚ := (List.zipWith (fun a b => a * b) u v).sum

/-- Squared l2 norm. -/
def sqNormQ (u : List ℚ) : ℚ := dotQ u u

/-- What sklearn guarantees of the two TF-IDF rows handed to
cosine_similarity: entries are nonnegative and each row is
l2-normalised (or all-zero), so its squared norm is at most 1. -/
def tfidfOK (p : List ℚ × List ℚ) : Prop :=
  (∀ x ∈ p.1, 0 ≤ x) ∧ (∀ x ∈ p.2, 0 ≤ x) ∧ sqNormQ p.1 ≤ 1 ∧ sqNormQ p.2 ≤ 1

/-- JobResumeMatcher._calculate_semantic_score. tfidf is the vectoriser
outcome: none models any exception inside the try block (caught and
turned into the 50.0 default), some (u, v) the two normalised rows, on
which cosine_similarity is their dot product. -/
def calculate_semantic_score (r : Resume) (j : Job) (tfidf : Option (List ℚ × List ℚ)) : ℚ :=
  if resume_semantic_text r = "" ∨ j.raw_text = "" then 50
  else
    match tfidf with
    | none => 50
    | some (u, v) => dotQ u v * 100

/-- The score record built by JobResumeMatcher.calculate_match_score
(the derived explanation dictionary never feeds back into scores and is
omitted). -/
structure MatchScores where
  overall_score : ℚ
  skills_score : ℚ
  experience_score : ℚ
  education_score : ℚ
  keywords_score : ℚ
  semantic_score : ℚ
  matched_skills : Finset String
  missing_skills : Finset String
  experience_gap : ℚ
deriving DecidableEq

/-- JobResumeMatcher.calculate_match_score. -/
def calculate_match_score (r : Resume) (j : Job) (tfidf : Option (List ℚ × List ℚ)) :
    MatchScores :=
  let sk := calculate_skills_score r j
  let ex := calculate_experience_score r j
  let ed := calculate_education_score r j
  let kw := calculate_keywords_score r j
  let sem := calculate_semantic_score r j tfidf
  { overall_score := sk.1 * 0.40 + ex.1 * 0.30 + ed * 0.15 + kw * 0.10 + sem * 0.05
    skills_score := sk.1
    experience_score := ex.1
    education_score := ed
    keywords_score := kw
    semantic_score := sem
    matched_skills := sk.2.1
    missing_skills := sk.2.2
    experience_gap := ex.2 }

/-! ## Candidate ranker (job_resume_matcher.py, CandidateRanker) -/

/-- One candidate profile of CandidateRanker.rank_candidates. -/
structure Candidate where
  name : String
  email : String
  phone : String
  overall_score : ℚ
  skills_score : ℚ
  experience_score : ℚ
  education_score : ℚ
  total_experience : ℚ
  matched_skills : Finset String
  missing_skills : Finset String
  resume_data : Resume
deriving DecidableEq

/-- The candidate profile built for one résumé inside rank_candidates.
vectorize stands for the sklearn TF-IDF fit on (job text, résumé text). -/
def candidate_of (vectorize : String → String → Option (List ℚ × List ℚ)) (job : Job)
    (r : Resume) : Candidate :=
  let s := calculate_match_score r job (vectorize job.raw_text (resume_semantic_text r))
  { name := r.contact.name
    email := r.contact.email
    phone := r.contact.phone
    overall_score := pyRound2 s.overall_score
    skills_score := pyRound2 s.skills_score
    experience_score := pyRound2 s.experience_score
    education_score := pyRound2 s.education_score
    total_experience := r.total_experience_years
    matched_skills := s.matched_skills
    missing_skills := s.missing_skills
    resume_data := r }

/-- The comparison of the Python sort with reverse=True: a before b when
a's overall score is at least b's; list.sort is stable, and a stable
sort under this relation is mergeSort. -/
def scoreDescending (a b : Candidate) : Bool := decide (b.overall_score ≤ a.overall_score)

/-- Python list slicing l[:t] for an int t, including negative t. -/
def pyTruncate (t : Int) (l : List Candidate) : List Candidate :=
  if 0 ≤ t then l.take t.toNat else l.take (l.length - (-t).toNat)

/-- CandidateRanker.rank_candidates: parse the job once, score every
résumé, stable-sort by overall score descending, and truncate only when
top_n is truthy (not None and not 0). -/
def rank_candidates (kwext : String → List String)
    (vectorize : String → String → Option (List ℚ × List ℚ))
    (resumes : List Resume) (job_description : String) (top_n : Option Int) :
    List Candidate :=
  let job_data := parse_job_description kwext job_description
  let ranked := (resumes.map (candidate_of vectorize job_data)).mergeSort scoreDescending
  match top_n with
  | none => ranked
  | some t => if t ≠ 0 then pyTruncate t ranked else ranked

/-! ## Concrete records used to instantiate theorems -/

/-- A minimal contact block. -/
def sampleContact : Contact := ⟨"Alice Doe", "a@example.com", "", "", "", ""⟩

/-- A résumé with no content and no experience. -/
def sampleResume : Resume := ⟨sampleContact, "", [], [], [], [], 0⟩

/-- A résumé whose only skill is Python, with 1 year of experience. -/
def pythonResume : Resume := ⟨sampleContact, "", [], [], [("programming", ["Python"])], [], 1⟩

/-- A résumé with 5 years of experience. -/
def expResumeA : Resume := ⟨sampleContact, "", [], [], [], [], 5⟩

/-- A résumé with 6 years of experience. -/
def overqualResume : Resume := ⟨sampleContact, "", [], [], [], [], 6⟩

/-- A job with no requirements at all. -/
def sampleJob : Job := ⟨"", "Position Not Specified", [], [], 0, none, "Not Specified", [], [], []⟩

/-- A job requiring Python and SQL and 3 years. -/
def reqJob : Job := ⟨"", "", ["Python", "SQL"], [], 3, none, "", [], [], []⟩

/-- A job with only a preferred skill. -/
def prefJob : Job := ⟨"", "", [], ["SQL"], 0, none, "", [], [], []⟩

/-- A job whose parsed maximum experience is 0 (parseable from text such
as "5 to 0 years"), with a minimum of 5. -/
def maxZeroJob : Job := ⟨"", "", [], [], 5, some 0, "", [], [], []⟩

/-- Work entries with one 3-year duration and one ongoing duration. -/
def witnessExps : List WorkEntry :=
  [⟨"", "", "", "", "3 years", "", ""⟩, ⟨"", "", "", "", "Ongoing", "", ""⟩]

/-- A keyword extractor returning nothing. -/
def kwNone : String → List String := fun _ => []

/-- A vectoriser that always fails. -/
def vecNone : String → String → Option (List ℚ × List ℚ) := fun _ _ => none

/-- The candidate profile of the empty résumé against the empty job text. -/
def stableCand : Candidate := candidate_of vecNone (parse_job_description kwNone "") sampleResume

/-! ## Helper lemmas -/

/-- A coverage ratio m/d·100 with m ≤ d lies in [0, 100]. -/
theorem ratio_coverage_bounds (m d : Nat) (hmd : m ≤ d) (hd : 0 < d) :
    0 ≤ (m : ℚ) / (d : ℚ) * 100 ∧ (m : ℚ) / (d : ℚ) * 100 ≤ 100 := by
  have hd' : (0 : ℚ) < (d : ℚ) := by exact_mod_cast hd
  constructor
  · positivity
  · have h1 : (m : ℚ) / (d : ℚ) ≤ 1 := by
      rw [div_le_one hd']
      exact_mod_cast hmd
    nlinarith

/-- The coverage of a nonempty target set by an arbitrary set is in [0, 100]. -/
theorem coverage_bounds (rs target : Finset String) (h : target ≠ ∅) :
    0 ≤ ((rs ∩ target).card : ℚ) / (target.card : ℚ) * 100 ∧
    ((rs ∩ target).card : ℚ) / (target.card : ℚ) * 100 ≤ 100 := by
  have hsub : (rs ∩ target).card ≤ target.card :=
    Finset.card_le_card Finset.inter_subset_right
  have hpos : 0 < target.card :=
    Finset.card_pos.mpr (Finset.nonempty_iff_ne_empty.mpr h)
  exact ratio_coverage_bounds _ _ hsub hpos

/-- The skills sub-score lies in [0, 100]. -/
theorem calculate_skills_score_bounds (r : Resume) (j : Job) :
    0 ≤ (calculate_skills_score r j).1 ∧ (calculate_skills_score r j).1 ≤ 100 := by
  unfold calculate_skills_score
  dsimp only
  split_ifs with h1 h2 h3 h4
  · norm_num
  · have hr := coverage_bounds (resume_skill_set r) (required_set j) h2
    have hp := coverage_bounds (resume_skill_set r) (preferred_set j) h3
    constructor <;> nlinarith [hr.1, hr.2, hp.1, hp.2]
  · have hr := coverage_bounds (resume_skill_set r) (required_set j) h2
    constructor <;> nlinarith [hr.1, hr.2]
  · exact coverage_bounds (resume_skill_set r) (preferred_set j) h4
  · norm_num

/-- The experience sub-score lies in [0, 100]. -/
theorem calculate_experience_score_bounds (r : Resume) (j : Job) :
    0 ≤ (calculate_experience_score r j).1 ∧ (calculate_experience_score r j).1 ≤ 100 := by
  unfold calculate_experience_score
  dsimp only
  split_ifs with h1 h2
  · norm_num
  · cases hmax : j.max_experience with
    | none => norm_num
    | some m =>
      dsimp only
      split_ifs with h3
      · constructor
        · exact le_trans (by norm_num) (le_max_left 70 _)
        · have hm : (m : ℚ) < r.total_experience_years := h3.2
          apply max_le (by norm_num)
          nlinarith
      · norm_num
  · have hlt : r.total_experience_years < (j.min_experience : ℚ) := not_le.mp h2
    constructor
    · exact le_max_left 0 _
    · apply max_le (by norm_num)
      nlinarith

/-- The education sub-score lies in [0, 100]. -/
theorem calculate_education_score_bounds (r : Resume) (j : Job) :
    0 ≤ calculate_education_score r j ∧ calculate_education_score r j ≤ 100 := by
  unfold calculate_education_score
  dsimp only
  split_ifs with h1 h2 h3
  · norm_num
  · norm_num
  · norm_num
  · have hlt : resumeEducationLevel r <
        (education_levels.lookup (pyLower j.education_required)).getD 0 := not_le.mp h2
    have hq : (resumeEducationLevel r : ℚ) <
        ((education_levels.lookup (pyLower j.education_required)).getD 0 : ℚ) := by
      exact_mod_cast hlt
    constructor
    · exact le_trans (by norm_num) (le_max_left 50 _)
    · apply max_le (by norm_num)
      nlinarith

/-- The keyword sub-score lies in [0, 100]. -/
theorem calculate_keywords_score_bounds (r : Resume) (j : Job) :
    0 ≤ calculate_keywords_score r j ∧ calculate_keywords_score r j ≤ 100 := by
  unfold calculate_keywords_score
  split_ifs with h1
  · norm_num
  · have hlen : (j.keywords.filter (fun k => pyContains (resume_keyword_text r) k)).length ≤
        j.keywords.length := List.length_filter_le _ _
    have hpos : 0 < j.keywords.length := List.length_pos.mpr h1
    exact ratio_coverage_bounds _ _ hlen hpos

/-- Dot products of entrywise-nonnegative vectors are nonnegative. -/
theorem dotQ_nonneg : ∀ (u v : List ℚ), (∀ x ∈ u, 0 ≤ x) → (∀ x ∈ v, 0 ≤ x) → 0 ≤ dotQ u v
  | [], _, _, _ => by simp [dotQ]
  | _ :: _, [], _, _ => by simp [dotQ]
  | a :: u, b :: v, hu, hv => by
    have h1 : 0 ≤ a := hu a (List.mem_cons_self a u)
    have h2 : 0 ≤ b := hv b (List.mem_cons_self b v)
    have h3 := dotQ_nonneg u v (fun x hx => hu x (List.mem_cons_of_mem a hx))
      (fun x hx => hv x (List.mem_cons_of_mem b hx))
    have h4 : 0 ≤ a * b := mul_nonneg h1 h2
    simp only [dotQ, List.zipWith_cons_cons, List.sum_cons]
    simp only [dotQ] at h3
    linarith

/-- Squared norms are nonnegative. -/
theorem sqNormQ_nonneg : ∀ u : List ℚ, 0 ≤ sqNormQ u
  | [] => by simp [sqNormQ, dotQ]
  | a :: u => by
    have ih := sqNormQ_nonneg u
    simp only [sqNormQ, dotQ, List.zipWith_cons_cons, List.sum_cons] at *
    nlinarith [mul_self_nonneg a]

/-- Twice a dot product is at most the sum of the squared norms
(the inequality 2ab ≤ a² + b², summed entrywise). -/
theorem two_dotQ_le : ∀ (u v : List ℚ), 2 * dotQ u v ≤ sqNormQ u + sqNormQ v
  | [], v => by
    have := sqNormQ_nonneg v
    simp only [dotQ, sqNormQ, List.zipWith_nil_left, List.sum_nil] at *
    linarith
  | a :: u, [] => by
    have := sqNormQ_nonneg (a :: u)
    simp only [dotQ, sqNormQ, List.zipWith_nil_right, List.sum_nil] at *
    linarith
  | a :: u, b :: v => by
    have ih := two_dotQ_le u v
    simp only [dotQ, sqNormQ, List.zipWith_cons_cons, List.sum_cons] at *
    nlinarith [sq_nonneg (a - b)]

/-- The semantic sub-score lies in [0, 100] whenever the vectoriser
outcome is an honest TF-IDF result. -/
theorem calculate_semantic_score_bounds (r : Resume) (j : Job)
    (tfidf : Option (List ℚ × List ℚ)) (h : ∀ p ∈ tfidf, tfidfOK p) :
    0 ≤ calculate_semantic_score r j tfidf ∧ calculate_semantic_score r j tfidf ≤ 100 := by
  unfold calculate_semantic_score
  split_ifs with hg
  · norm_num
  · cases tfidf with
    | none => norm_num
    | some p =>
      obtain ⟨u, v⟩ := p
      have hok := h (u, v) rfl
      obtain ⟨hu, hv, hnu, hnv⟩ := hok
      have h1 : 0 ≤ dotQ u v := dotQ_nonneg u v hu hv
      have h2 : 2 * dotQ u v ≤ sqNormQ u + sqNormQ v := two_dotQ_le u v
      simp only [tfidfOK] at hnu hnv
      dsimp only
      constructor <;> nlinarith

/-! ## Claim theorems -/

/-- C1: for every (résumé, job) pair, each of the five sub-scores
(skills, experience, education, keywords, semantic) returned by
calculate_match_score is in [0, 100], and overall_score is the weighted
sum with fixed weights 0.40/0.30/0.15/0.10/0.05 and is also in
[0, 100]. The hypothesis states the sklearn contract for the TF-IDF
rows (nonnegative entries, l2-normalised or zero). -/
theorem calculate_match_score_bounds (r : Resume) (j : Job)
    (tfidf : Option (List ℚ × List ℚ)) (hvec : ∀ p ∈ tfidf, tfidfOK p) :
    (0 ≤ (calculate_match_score r j tfidf).skills_score ∧
      (calculate_match_score r j tfidf).skills_score ≤ 100) ∧
    (0 ≤ (calculate_match_score r j tfidf).experience_score ∧
      (calculate_match_score r j tfidf).experience_score ≤ 100) ∧
    (0 ≤ (calculate_match_score r j tfidf).education_score ∧
      (calculate_match_score r j tfidf).education_score ≤ 100) ∧
    (0 ≤ (calculate_match_score r j tfidf).keywords_score ∧
      (calculate_match_score r j tfidf).keywords_score ≤ 100) ∧
    (0 ≤ (calculate_match_score r j tfidf).semantic_score ∧
      (calculate_match_score r j tfidf).semantic_score ≤ 100) ∧
    (calculate_match_score r j tfidf).overall_score =
      (calculate_match_score r j tfidf).skills_score * 0.40 +
      (calculate_match_score r j tfidf).experience_score * 0.30 +
      (calculate_match_score r j tfidf).education_score * 0.15 +
      (calculate_match_score r j tfidf).keywords_score * 0.10 +
      (calculate_match_score r j tfidf).semantic_score * 0.05 ∧
    0 ≤ (calculate_match_score r j tfidf).overall_score ∧
    (calculate_match_score r j tfidf).overall_score ≤ 100 := by
  have hsk := calculate_skills_score_bounds r j
  have hex := calculate_experience_score_bounds r j
  have hed := calculate_education_score_bounds r j
  have hkw := calculate_keywords_score_bounds r j
  have hsem := calculate_semantic_score_bounds r j tfidf hvec
  have e1 : (calculate_match_score r j tfidf).skills_score = (calculate_skills_score r j).1 := rfl
  have e2 : (calculate_match_score r j tfidf).experience_score =
    (calculate_experience_score r j).1 := rfl
  have e3 : (calculate_match_score r j tfidf).education_score =
    calculate_education_score r j := rfl
  have e4 : (calculate_match_score r j tfidf).keywords_score =
    calculate_keywords_score r j := rfl
  have e5 : (calculate_match_score r j tfidf).semantic_score =
    calculate_semantic_score r j tfidf := rfl
  have e0 : (calculate_match_score r j tfidf).overall_score =
      (calculate_skills_score r j).1 * 0.40 + (calculate_experience_score r j).1 * 0.30 +
      calculate_education_score r j * 0.15 + calculate_keywords_score r j * 0.10 +
      calculate_semantic_score r j tfidf * 0.05 := rfl
  rw [e0, e1, e2, e3, e4, e5]
  refine ⟨hsk, hex, hed, hkw, hsem, rfl, ?_, ?_⟩ <;>
    nlinarith [hsk.1, hsk.2, hex.1, hex.2, hed.1, hed.2, hkw.1, hkw.2, hsem.1, hsem.2]

/-- Witness for C1 at a concrete pair with a failed vectorisation. -/
theorem calculate_match_score_bounds_witness :
    (∀ p ∈ (none : Option (List ℚ × List ℚ)), tfidfOK p) ∧
    (0 ≤ (calculate_match_score sampleResume sampleJob none).overall_score ∧
      (calculate_match_score sampleResume sampleJob none).overall_score ≤ 100) :=
  ⟨by simp,
   (calculate_match_score_bounds sampleResume sampleJob none (by simp)).2.2.2.2.2.2⟩

/-- C2: matched_skills and missing_skills are disjoint, and their union
contains the job's declared skill union (required ∪ preferred,
case-folded), for every (résumé, job) pair. -/
theorem calculate_skills_score_partition (r : Resume) (j : Job) :
    Disjoint (calculate_skills_score r j).2.1 (calculate_skills_score r j).2.2 ∧
    required_set j ∪ preferred_set j ⊆
      (calculate_skills_score r j).2.1 ∪ (calculate_skills_score r j).2.2 := by
  unfold calculate_skills_score
  dsimp only
  by_cases h1 : required_set j ∪ preferred_set j = ∅
  · rw [if_pos h1]
    constructor
    · simp
    · rw [h1]
      exact Finset.empty_subset _
  · rw [if_neg h1]
    dsimp only
    constructor
    · rw [Finset.disjoint_left]
      intro x hx hx2
      simp only [Finset.mem_union, Finset.mem_inter, Finset.mem_sdiff] at hx hx2
      rcases hx with ⟨hrs, _⟩ | ⟨hrs, _⟩ <;> exact hx2.2 hrs
    · intro x hx
      simp only [Finset.mem_union, Finset.mem_inter, Finset.mem_sdiff] at hx ⊢
      by_cases hrs : x ∈ resume_skill_set r
      · rcases hx with h | h
        · exact Or.inl (Or.inl ⟨hrs, h⟩)
        · exact Or.inl (Or.inr ⟨hrs, h⟩)
      · exact Or.inr ⟨hx, hrs⟩

/-- C3: the skills sub-score is 100 when the job declares no skills at
all; otherwise, when required skills exist it is 0.8·required_coverage
+ 0.2·preferred_coverage (preferred_coverage 0 when no preferred
skills), and when no required skills exist it is preferred_coverage
alone. -/
theorem calculate_skills_score_formula (r : Resume) (j : Job) :
    (required_set j ∪ preferred_set j = ∅ → (calculate_skills_score r j).1 = 100) ∧
    (required_set j ≠ ∅ → (calculate_skills_score r j).1 =
      0.8 * (((resume_skill_set r ∩ required_set j).card : ℚ) /
          ((required_set j).card : ℚ) * 100) +
      0.2 * (if preferred_set j ≠ ∅ then
          ((resume_skill_set r ∩ preferred_set j).card : ℚ) /
            ((preferred_set j).card : ℚ) * 100
        else 0)) ∧
    (required_set j = ∅ → preferred_set j ≠ ∅ → (calculate_skills_score r j).1 =
      ((resume_skill_set r ∩ preferred_set j).card : ℚ) /
        ((preferred_set j).card : ℚ) * 100) := by
  refine ⟨?_, ?_, ?_⟩
  · intro h
    unfold calculate_skills_score
    dsimp only
    rw [if_pos h]
  · intro hreq
    have hall : ¬(required_set j ∪ preferred_set j = ∅) :=
      fun hc => hreq (Finset.union_eq_empty.mp hc).1
    unfold calculate_skills_score
    dsimp only
    rw [if_neg hall, if_pos hreq, if_pos hreq]
    by_cases hp : preferred_set j ≠ (∅ : Finset String)
    · rw [if_pos hp]
      ring
    · rw [if_neg hp]
      ring
  · intro hreq hp
    have hall : ¬(required_set j ∪ preferred_set j = ∅) :=
      fun hc => hp (Finset.union_eq_empty.mp hc).2
    unfold calculate_skills_score
    dsimp only
    rw [if_neg hall, if_neg (fun hc => hc hreq), if_pos hp]

/-- Witness for C3 at three concrete jobs: no skills at all, required
skills present, and only a preferred skill. -/
theorem calculate_skills_score_formula_witness :
    ((calculate_skills_score sampleResume sampleJob).1 = 100) ∧
    ((calculate_skills_score pythonResume reqJob).1 =
      0.8 * (((resume_skill_set pythonResume ∩ required_set reqJob).card : ℚ) /
          ((required_set reqJob).card : ℚ) * 100) +
      0.2 * (if preferred_set reqJob ≠ ∅ then
          ((resume_skill_set pythonResume ∩ preferred_set reqJob).card : ℚ) /
            ((preferred_set reqJob).card : ℚ) * 100
        else 0)) ∧
    ((calculate_skills_score sampleResume prefJob).1 =
      ((resume_skill_set sampleResume ∩ preferred_set prefJob).card : ℚ) /
        ((preferred_set prefJob).card : ℚ) * 100) :=
  ⟨(calculate_skills_score_formula sampleResume sampleJob).1 (by decide),
   (calculate_skills_score_formula pythonResume reqJob).2.1 (by decide),
   (calculate_skills_score_formula sampleResume prefJob).2.2 (by decide) (by decide)⟩

/-- C5: the semantic sub-score is the neutral default 50 whenever the
résumé text or the job raw text is empty or the vectorisation fails;
being a total function, it never raises. -/
theorem calculate_semantic_score_default (r : Resume) (j : Job)
    (tfidf : Option (List ℚ × List ℚ))
    (h : resume_semantic_text r = "" ∨ j.raw_text = "" ∨ tfidf = none) :
    calculate_semantic_score r j tfidf = 50 := by
  unfold calculate_semantic_score
  rcases h with h | h | h
  · rw [if_pos (Or.inl h)]
  · rw [if_pos (Or.inr h)]
  · subst h
    split_ifs <;> rfl

/-- Witness for C5 at a concrete failed vectorisation. -/
theorem calculate_semantic_score_default_witness :
    calculate_semantic_score sampleResume sampleJob none = 50 :=
  calculate_semantic_score_default sampleResume sampleJob none (Or.inr (Or.inl rfl))

/-- C10: rank_candidates with top_n = 0 returns the full ranked list,
identical to passing no top_n; truncation happens only for truthy
top_n. -/
theorem rank_candidates_top_zero (kwext : String → List String)
    (vectorize : String → String → Option (List ℚ × List ℚ))
    (resumes : List Resume) (job_description : String) :
    rank_candidates kwext vectorize resumes job_description (some 0) =
    rank_candidates kwext vectorize resumes job_description none := by
  unfold rank_candidates
  simp

/-- C6 counterexample: a document with the '.doc' extension — which is
neither pdf nor docx — is accepted by the format dispatch of
parse_resume and routed to the DOCX extractor instead of failing with
the unsupported-format error. -/
theorem resume_format_route_doc_cex :
    pathSuffix "resume.doc" = ".doc" ∧
    pyLower (pathSuffix "resume.doc") ≠ ".pdf" ∧
    pyLower (pathSuffix "resume.doc") ≠ ".docx" ∧
    resume_format_route "resume.doc" = Except.ok FormatRoute.docxRoute :=
  ⟨by decide, by decide, by decide, rfl⟩

/-- C6 (amended): parse_resume fails with the unsupported-format error
exactly for documents whose case-folded extension is outside
{.pdf, .docx, .doc}; pdf, docx and doc extensions never raise it. -/
theorem resume_format_route_spec (p : String) :
    ((pyLower (pathSuffix p) = ".pdf" ∨ pyLower (pathSuffix p) = ".docx" ∨
        pyLower (pathSuffix p) = ".doc") →
      (resume_format_route p).isOk = true) ∧
    (pyLower (pathSuffix p) ≠ ".pdf" → pyLower (pathSuffix p) ≠ ".docx" →
      pyLower (pathSuffix p) ≠ ".doc" →
      resume_format_route p =
        Except.error (pyJoin "" ["Unsupported file format: ", pathSuffix p])) := by
  unfold resume_format_route
  constructor
  · intro h
    split_ifs with h1 h2
    · rfl
    · rfl
    · rcases h with h | h | h
      · exact absurd h h1
      · exact absurd (Or.inl h) h2
      · exact absurd (Or.inr h) h2
  · intro h1 h2 h3
    rw [if_neg h1, if_neg (fun hc => hc.elim h2 h3)]

/-- Witness for C6 (amended) at a docx path and a txt path. -/
theorem resume_format_route_spec_witness :
    (resume_format_route "cv.docx").isOk = true ∧
    resume_format_route "cv.txt" =
      Except.error (pyJoin "" ["Unsupported file format: ", pathSuffix "cv.txt"]) :=
  ⟨(resume_format_route_spec "cv.docx").1 (by decide),
   (resume_format_route_spec "cv.txt").2 (by decide) (by decide) (by decide)⟩

/-- C7: parse_job_description is a total function of the input text (it
never raises), and on text where no pattern matches it yields the
default record: the title placeholder, min_experience 0, no maximum,
empty skill lists and the 'Not Specified' education — shown both as
field laws holding for every input and at the canonical pattern-free
input, the empty string. -/
theorem parse_job_description_total_defaults :
    (∀ kwext text, (parse_job_description kwext text).raw_text = text ∧
      (parse_job_description kwext text).keywords = kwext text) ∧
    (∀ kwext, parse_job_description kwext "" =
      { raw_text := ""
        title := "Position Not Specified"
        required_skills := []
        preferred_skills := []
        min_experience := 0
        max_experience := none
        education_required := "Not Specified"
        keywords := kwext ""
        must_have_skills := []
        nice_to_have_skills := [] }) := by
  constructor
  · intro kwext text
    exact ⟨rfl, rfl⟩
  · intro kwext
    have h1 : extract_job_title "" = "Position Not Specified" := by decide
    have h2 : extract_skills "" = ([], []) := by decide
    have h3 : extract_experience "" = (0, none) := by decide
    have h4 : extract_education "" = "Not Specified" := by decide
    have h5 : extract_must_have_skills "" = [] := by decide
    have h6 : extract_nice_to_have_skills "" = [] := by decide
    simp [parse_job_description, h1, h2, h3, h4, h5, h6]

/-- A job requiring at least 3 years with no maximum, matching the
spec's end-to-end scenario. -/
def expJobA : Job := ⟨"", "", [], [], 3, none, "", [], [], []⟩

/-- A résumé with 1 year of experience. -/
def expResumeB : Resume := ⟨sampleContact, "", [], [], [], [], 1⟩

/-- C4 counterexample: with min_experience 5, max_experience specified
as 0 (producible by the job parser, e.g. from "5 to 0 years") and
resume_years 6, the claim prescribes the overqualification penalty
max(70, 100 − 5·excess) = 70, but the code's truthiness test
`max_exp and resume_exp > max_exp` treats the maximum 0 as absent and
returns 100. -/
theorem calculate_experience_score_max_zero_cex :
    maxZeroJob.max_experience = some 0 ∧
    (maxZeroJob.min_experience : ℚ) ≤ overqualResume.total_experience_years ∧
    ((0 : ℕ) : ℚ) < overqualResume.total_experience_years ∧
    max 70 (100 - (overqualResume.total_experience_years - ((0 : ℕ) : ℚ)) * 5) = 70 ∧
    calculate_experience_score overqualResume maxZeroJob = (100, 0) := by
  refine ⟨rfl, by norm_num [maxZeroJob, overqualResume], by norm_num [overqualResume], ?_, rfl⟩
  norm_num [overqualResume]

/-- C4 (amended): the experience sub-score is 100 with gap 0 when the
job requires 0 years; when resume_years meets the requirement the gap
is 0 and the score is 100 unless a nonzero max_experience is specified
and exceeded, in which case it is max(70, 100 − 5·excess_years); when
resume_years falls short, gap = min_experience − resume_years and the
score is max(0, 100 − 20·gap). -/
theorem calculate_experience_score_spec (r : Resume) (j : Job) :
    (j.min_experience = 0 → calculate_experience_score r j = (100, 0)) ∧
    (j.min_experience ≠ 0 → (j.min_experience : ℚ) ≤ r.total_experience_years →
      (calculate_experience_score r j).2 = 0 ∧
      (calculate_experience_score r j).1 =
        (match j.max_experience with
         | some m =>
           if m ≠ 0 ∧ (m : ℚ) < r.total_experience_years then
             max 70 (100 - (r.total_experience_years - (m : ℚ)) * 5)
           else 100
         | none => 100)) ∧
    (j.min_experience ≠ 0 → r.total_experience_years < (j.min_experience : ℚ) →
      (calculate_experience_score r j).2 =
        (j.min_experience : ℚ) - r.total_experience_years ∧
      (calculate_experience_score r j).1 =
        max 0 (100 - ((j.min_experience : ℚ) - r.total_experience_years) * 20)) := by
  refine ⟨?_, ?_, ?_⟩
  · intro h
    unfold calculate_experience_score
    dsimp only
    rw [if_pos (by exact_mod_cast congrArg (Nat.cast : ℕ → ℚ) h)]
  · intro h1 h2
    have hne : ((j.min_experience : ℚ)) ≠ 0 := by
      simpa using fun hc => h1 (by exact_mod_cast hc)
    unfold calculate_experience_score
    dsimp only
    rw [if_neg hne, if_pos h2]
    cases hmax : j.max_experience with
    | none => exact ⟨rfl, rfl⟩
    | some m =>
      dsimp only
      split_ifs with h3
      · exact ⟨rfl, rfl⟩
      · exact ⟨rfl, rfl⟩
  · intro h1 h2
    have hne : ((j.min_experience : ℚ)) ≠ 0 := by
      simpa using fun hc => h1 (by exact_mod_cast hc)
    unfold calculate_experience_score
    dsimp only
    rw [if_neg hne, if_neg (not_le.mpr h2)]
    exact ⟨rfl, rfl⟩

/-- Witness for C4 (amended) on the spec's end-to-end scenario: 5 years
against a 3-year minimum scores 100, 1 year against it scores 60 with
gap 2. -/
theorem calculate_experience_score_spec_witness :
    (calculate_experience_score expResumeA expJobA).1 = 100 ∧
    (calculate_experience_score expResumeB expJobA).2 = 2 ∧
    (calculate_experience_score expResumeB expJobA).1 = 60 := by
  have hA := (calculate_experience_score_spec expResumeA expJobA).2.1
    (by decide) (by norm_num [expResumeA, expJobA])
  have hB := (calculate_experience_score_spec expResumeB expJobA).2.2
    (by decide) (by norm_num [expResumeB, expJobA])
  refine ⟨hA.2, ?_, ?_⟩
  · rw [hB.1]
    norm_num [expResumeB, expJobA]
  · rw [hB.2]
    norm_num [expResumeB, expJobA]

/-- Characters written for a digit value are decimal digits. -/
theorem char_ofNat_digit (k : Nat) (h : k < 10) : (Char.ofNat (48 + k)).isDigit = true := by
  interval_cases k <;> decide

/-- The decimal representation of a natural number contains a digit. -/
theorem natDigitChars_has_digit (n : Nat) : ∃ c ∈ natDigitChars n, c.isDigit = true := by
  unfold natDigitChars natDigitsAux
  by_cases h : n < 10
  · rw [if_pos h]
    exact ⟨_, List.mem_singleton.mpr rfl, char_ofNat_digit n h⟩
  · rw [if_neg h]
    refine ⟨Char.ofNat (48 + n % 10), ?_, char_ofNat_digit _ (Nat.mod_lt _ (by norm_num))⟩
    simp

/-- The decimal representation of an integer contains a digit. -/
theorem intChars_has_digit (z : Int) : ∃ c ∈ intChars z, c.isDigit = true := by
  unfold intChars
  split_ifs with h
  · obtain ⟨c, hc, hd⟩ := natDigitChars_has_digit (-z).toNat
    exact ⟨c, List.mem_cons_of_mem _ hc, hd⟩
  · exact natDigitChars_has_digit z.toNat

/-- The \d+ search succeeds on any input containing a digit. -/
theorem firstDigitRun_isSome (s : List Char) (h : ∃ c ∈ s, c.isDigit = true) :
    (firstDigitRun s).isSome = true := by
  induction s with
  | nil => simp at h
  | cons a t ih =>
    unfold firstDigitRun
    by_cases ha : a.isDigit = true
    · simp [ha]
    · rw [if_neg ha]
      apply ih
      obtain ⟨c, hc, hd⟩ := h
      rcases List.mem_cons.mp hc with rfl | hmem
      · exact absurd hd ha
      · exact ⟨c, hmem, hd⟩

/-- Duration labels cannot make the year-count computation raise: they
always contain a digit. -/
theorem durOK_durationLabel (y : Int) : durOK (durationLabel y) := by
  unfold durOK durationLabel
  intro hy
  obtain ⟨c, hc, hd⟩ := intChars_has_digit y
  split_ifs at hy ⊢ with h
  · apply firstDigitRun_isSome
    refine ⟨c, ?_, hd⟩
    show c ∈ intChars y ++ " years".toList
    exact List.mem_append_left _ hc
  · apply firstDigitRun_isSome
    refine ⟨c, ?_, hd⟩
    show c ∈ intChars y ++ " year".toList
    exact List.mem_append_left _ hc

/-- The empty duration is safe: it does not mention 'year'. -/
theorem durOK_empty : durOK "" := fun h => absurd h (by decide)

/-- The 'Ongoing' duration is safe: it does not mention 'year'. -/
theorem durOK_ongoing : durOK "Ongoing" := fun h => absurd h (by decide)

/-- Every duration string produced by _calculate_duration is safe for
the year-count computation. -/
theorem durOK_calculate_duration (nowYear : Nat) (s e : String) :
    durOK (calculate_duration nowYear s e) := by
  unfold calculate_duration
  split_ifs with h1 h2 hp
  · exact durOK_empty
  · exact durOK_ongoing
  · cases hs : first4Digits s.toList with
    | none => exact durOK_empty
    | some sy => exact durOK_durationLabel _
  · cases hs : first4Digits s.toList with
    | none => exact durOK_empty
    | some sy =>
      cases he : first4Digits e.toList with
      | none => exact durOK_empty
      | some ey => exact durOK_durationLabel _

/-- On safe durations the per-entry month computation never fails and
equals twelve times the entry's year count. -/
theorem duration_months_eq (d : String) (h : durOK d) :
    duration_months d = some (12 * duration_year_count d) := by
  unfold duration_months duration_year_count
  by_cases hy : yearTokenIn d = true
  · have hs := h hy
    cases hr : firstDigitRun d.toList with
    | none => rw [hr] at hs; simp at hs
    | some run => simp [hy, hr]
  · simp [hy]

/-- On safe durations the accumulated months never fail and equal
twelve times the summed year counts. -/
theorem total_months_eq (ds : List String) (h : ∀ d ∈ ds, durOK d) :
    total_months_of ds = some (12 * (ds.map duration_year_count).sum) := by
  induction ds with
  | nil => simp [total_months_of]
  | cons d t ih =>
    unfold total_months_of
    rw [duration_months_eq d (h d (List.mem_cons_self d t)),
      ih (fun x hx => h x (List.mem_cons_of_mem d hx))]
    dsimp only
    rw [List.map_cons, List.sum_cons, Nat.mul_add]

/-- Python round(x, 1) fixes integers. -/
theorem pyRound1_natCast (k : Nat) : pyRound1 ((k : ℚ)) = (k : ℚ) := by
  have h1 : ((k : ℚ)) * 10 = (((10 * k : ℕ) : ℤ) : ℚ) := by push_cast; ring
  unfold pyRound1 roundHalfEven
  rw [h1, Int.floor_intCast]
  dsimp only
  rw [sub_self]
  norm_num

/-- C9: for every parsed résumé, total_experience_years is nonnegative
and is a deterministic function solely of the experience entries'
duration strings: the sum of the whole-year counts of entries whose
duration contains a parseable year (entries without one count zero),
converted to months and back to years rounded to one decimal. The
first conjunct shows every duration the parser itself produces is safe
for that computation. -/
theorem calculate_total_experience_spec :
    (∀ (nowYear : Nat) (s e : String), durOK (calculate_duration nowYear s e)) ∧
    (∀ exps : List WorkEntry, (∀ x ∈ exps, durOK x.duration) →
      calculate_total_experience exps =
        some (((exps.map (fun x => duration_year_count x.duration)).sum : ℕ) : ℚ) ∧
      (0 : ℚ) ≤ (((exps.map (fun x => duration_year_count x.duration)).sum : ℕ) : ℚ)) := by
  constructor
  · exact durOK_calculate_duration
  · intro exps h
    have ht : total_months_of (exps.map WorkEntry.duration) =
        some (12 * ((exps.map WorkEntry.duration).map duration_year_count).sum) :=
      total_months_eq _ (by
        intro d hd
        obtain ⟨x, hx, rfl⟩ := List.mem_map.mp hd
        exact h x hx)
    have hmm : (exps.map WorkEntry.duration).map duration_year_count =
        exps.map (fun x => duration_year_count x.duration) := by
      rw [List.map_map]
      rfl
    constructor
    · have he : calculate_total_experience exps =
          (total_months_of (exps.map WorkEntry.duration)).map
            (fun (m : ℕ) => pyRound1 ((m : ℚ) / 12)) := rfl
      have hdiv : ((12 * (exps.map (fun x => duration_year_count x.duration)).sum : ℕ) : ℚ) / 12 =
          (((exps.map (fun x => duration_year_count x.duration)).sum : ℕ) : ℚ) := by
        push_cast
        ring
      rw [he, ht, hmm, Option.map_some', hdiv, pyRound1_natCast]
    · positivity

/-- The concrete durations "3 years" and "Ongoing" are safe. -/
theorem witnessExps_durOK : ∀ x ∈ witnessExps, durOK x.duration := by
  intro x hx
  fin_cases hx
  · exact fun h => by decide
  · exact fun h => absurd h (by decide)

/-- Witness for C9 at concrete entries with durations "3 years" and
"Ongoing". -/
theorem calculate_total_experience_spec_witness :
    (∀ x ∈ witnessExps, durOK x.duration) ∧
    calculate_total_experience witnessExps =
      some (((witnessExps.map (fun x => duration_year_count x.duration)).sum : ℕ) : ℚ) :=
  ⟨witnessExps_durOK, (calculate_total_experience_spec.2 witnessExps witnessExps_durOK).1⟩

/-- The descending score comparison is transitive. -/
theorem scoreDescending_trans (x y z : Candidate) :
    scoreDescending x y → scoreDescending y z → scoreDescending x z := by
  intro h1 h2
  simp only [scoreDescending, decide_eq_true_eq] at *
  exact le_trans h2 h1

/-- The descending score comparison is total. -/
theorem scoreDescending_total (x y : Candidate) :
    scoreDescending x y || scoreDescending y x := by
  simp only [scoreDescending]
  rcases le_total x.overall_score y.overall_score with h | h <;> simp [h]

/-- C8: the sequence returned by rank_candidates is sorted in
descending order of overall_score (for every truncation choice), and
candidates with equal overall_score keep their original input order:
any pair already ordered by score in the scored input list — in
particular any tied pair — stays a sublist of the full ranked output.
With scores 92, 92, 55 for inputs [A, B, C], this puts A before B. -/
theorem rank_candidates_sorted_stable (kwext : String → List String)
    (vectorize : String → String → Option (List ℚ × List ℚ))
    (resumes : List Resume) (job_description : String) (a b : Candidate)
    (hsub : List.Sublist [a, b]
      (resumes.map (candidate_of vectorize (parse_job_description kwext job_description))))
    (hba : b.overall_score ≤ a.overall_score) :
    (∀ top_n, List.Pairwise (fun x y : Candidate => y.overall_score ≤ x.overall_score)
      (rank_candidates kwext vectorize resumes job_description top_n)) ∧
    List.Sublist [a, b] (rank_candidates kwext vectorize resumes job_description none) := by
  have hsorted : (List.mergeSort
      (resumes.map (candidate_of vectorize (parse_job_description kwext job_description)))
      scoreDescending).Pairwise (fun x y : Candidate => y.overall_score ≤ x.overall_score) := by
    have h := List.sorted_mergeSort scoreDescending_trans scoreDescending_total
      (resumes.map (candidate_of vectorize (parse_job_description kwext job_description)))
    exact h.imp (fun hxy => by simpa [scoreDescending, decide_eq_true_eq] using hxy)
  constructor
  · intro top_n
    cases top_n with
    | none => exact hsorted
    | some t =>
      show List.Pairwise _ (if t ≠ 0 then pyTruncate t _ else _)
      split_ifs with ht
      · unfold pyTruncate
        split_ifs with hsign
        · exact List.Pairwise.sublist (List.take_sublist _ _) hsorted
        · exact List.Pairwise.sublist (List.take_sublist _ _) hsorted
      · exact hsorted
  · exact List.pair_sublist_mergeSort scoreDescending_trans scoreDescending_total
      (decide_eq_true hba) hsub

/-- Witness for C8: two identical résumés produce a tied pair that stays
in input order in the ranked output. -/
theorem rank_candidates_sorted_stable_witness :
    (∀ top_n, List.Pairwise (fun x y : Candidate => y.overall_score ≤ x.overall_score)
      (rank_candidates kwNone vecNone [sampleResume, sampleResume] "" top_n)) ∧
    List.Sublist [stableCand, stableCand]
      (rank_candidates kwNone vecNone [sampleResume, sampleResume] "" none) :=
  rank_candidates_sorted_stable kwNone vecNone [sampleResume, sampleResume] ""
    stableCand stableCand (List.Sublist.refl _) (le_refl _)
